import Mathlib

/-!
Shallow embedding of the STM32 UART logger (`logger.h` and `logger_module.h`).

The C code is a header-only logging facility: an enum of severities, a global
level `gLogLevel`, a filter macro `CHECK_LOG_LEVEL`, four decorated logging
macros (`LOG_DEBUG`, `LOG_INFO`, `LOG_WARNING`, `LOG_ERROR`), one raw macro
(`LOG_RAW`), a validated global setter `LOGGER_SET_LOGGING_LEVEL`, and a
per-module registration layer (`log_instance_t`, `LOG_MODULE_REGISTER`,
`LOG_MODULE_SET_LEVEL`).

Modelling choices:
  * C strings and byte buffers are `List Char`.
  * `snprintf(msg, LOG_BUFFER_SIZE, ...)` is modelled on the already
    substituted text (`rendered`): it stores the first `LOG_BUFFER_SIZE - 1`
    characters followed by a terminating NUL character.  Variadic format
    substitution itself is not modelled; each decorated macro's format string
    is translated as the concatenation the macro builds around the user text,
    with `%s` replaced by the function name and `%d` by the decimal line
    number, exactly in the order of the C format string.
  * `HAL_UART_Transmit(&huart1, msg, strlen(msg), HAL_MAX_DELAY)` transmits
    the first `strlen(msg)` bytes of the buffer; an emitting macro call is
    modelled as the list of transmitted payloads (empty when filtered out).
  * The module layer (`logger_module.h`) stores `log_instance_t` records.
    `CURRENT_LOG_MODULE` is set by `LOG_MODULE_REGISTER` / `LOG_MODULE_DECLARE`
    but is never read by any `LOG_*` macro in `logger.h`, so a logging call
    made in a module context expands to exactly the global-level macro.
-/

set_option maxRecDepth 10000

namespace StmLogger

/-- The C enum `log_level_t`: DEBUG=0, INFO=1, WARNING=2, ERROR=3, COUNT=4,
OFF=99. -/
inductive log_level_t where
  | LOG_LEVEL_DEBUG
  | LOG_LEVEL_INFO
  | LOG_LEVEL_WARNING
  | LOG_LEVEL_ERROR
  | LOG_LEVEL_COUNT
  | LOG_LEVEL_OFF
  deriving DecidableEq, Fintype, Repr

open log_level_t

/-- The integer value the C enum assigns to each enumerator
(`LOG_LEVEL_OFF = 99`, the others consecutive from 0). -/
def log_level_t.toOrdinal : log_level_t → Nat
  | LOG_LEVEL_DEBUG => 0
  | LOG_LEVEL_INFO => 1
  | LOG_LEVEL_WARNING => 2
  | LOG_LEVEL_ERROR => 3
  | LOG_LEVEL_COUNT => 4
  | LOG_LEVEL_OFF => 99

/-- `#define CHECK_LOG_LEVEL(severity) ((severity) >= gLogLevel ? 1 : 0)` —
the C comparison is on the enum's integer values; `gLogLevel` is passed
explicitly. -/
def CHECK_LOG_LEVEL (severity gLogLevel : log_level_t) : Nat :=
  if gLogLevel.toOrdinal ≤ severity.toOrdinal then 1 else 0

/-- `#define LOG_BUFFER_SIZE 128`. -/
def LOG_BUFFER_SIZE : Nat := 128

/-- ANSI reset, `#define KNRM "\x1B[0m"`. -/
def KNRM : List Char := "\x1B[0m".toList

/-- ANSI red, `#define KRED "\x1B[31m"`. -/
def KRED : List Char := "\x1B[31m".toList

/-- ANSI green, `#define KGRN "\x1B[32m"`. -/
def KGRN : List Char := "\x1B[32m".toList

/-- ANSI yellow, `#define KYEL "\x1B[33m"`. -/
def KYEL : List Char := "\x1B[33m".toList

/-- ANSI white, `#define KWHT "\x1B[37m"`. -/
def KWHT : List Char := "\x1B[37m".toList

/-- The NUL character that terminates C strings. -/
def NUL : Char := Char.ofNat 0

/-- C `strlen`: the number of characters before the first NUL. -/
def strlen : List Char → Nat
  | [] => 0
  | c :: cs => if c = NUL then 0 else strlen cs + 1

/-- The buffer contents after
`snprintf(msg, LOG_BUFFER_SIZE, ...)` renders `rendered`: the first
`LOG_BUFFER_SIZE - 1` characters, then the terminating NUL that `snprintf`
always writes.  (`snprintf` never writes more than `LOG_BUFFER_SIZE` bytes.) -/
def snprintfBuf (rendered : List Char) : List Char :=
  rendered.take (LOG_BUFFER_SIZE - 1) ++ [NUL]

/-- The bytes `HAL_UART_Transmit(&huart1, (uint8_t *) msg, strlen(msg), ...)`
sends: the first `strlen(msg)` bytes of the buffer. -/
def transmitted (rendered : List Char) : List Char :=
  (snprintfBuf rendered).take (strlen (snprintfBuf rendered))

/-- Rendered text of `LOG_DEBUG`'s format string
`KWHT "[DBG][%s:%d]: " fmt KNRM` (the reset code comes after the user text). -/
def renderDebug (func : List Char) (line : Nat) (user : List Char) : List Char :=
  KWHT ++ "[DBG][".toList ++ func ++ ":".toList ++ (toString line).toList ++
    "]: ".toList ++ user ++ KNRM

/-- Rendered text of `LOG_INFO`'s format string
`KGRN "[INF][%s:%d]: " KNRM fmt` (the reset code comes before the user text). -/
def renderInfo (func : List Char) (line : Nat) (user : List Char) : List Char :=
  KGRN ++ "[INF][".toList ++ func ++ ":".toList ++ (toString line).toList ++
    "]: ".toList ++ KNRM ++ user

/-- Rendered text of `LOG_WARNING`'s format string
`KYEL "[WRN][%s:%d]: " KNRM fmt`. -/
def renderWarning (func : List Char) (line : Nat) (user : List Char) : List Char :=
  KYEL ++ "[WRN][".toList ++ func ++ ":".toList ++ (toString line).toList ++
    "]: ".toList ++ KNRM ++ user

/-- Rendered text of `LOG_ERROR`'s format string
`KRED "[ERR][%s:%d]: " KNRM fmt`. -/
def renderError (func : List Char) (line : Nat) (user : List Char) : List Char :=
  KRED ++ "[ERR][".toList ++ func ++ ":".toList ++ (toString line).toList ++
    "]: ".toList ++ KNRM ++ user

/-- `LOG_RAW(fmt, ...)`: formats into the buffer and transmits unconditionally.
The macro references no filter state at all; the ambient global level `g` is
taken as a parameter to state that explicitly, and it is unused. -/
def LOG_RAW (g : log_level_t) (rendered : List Char) : List (List Char) :=
  match g with
  | _ => [transmitted rendered]

/-- `LOG_DEBUG(fmt, ...)`: guarded by `if (CHECK_LOG_LEVEL(LOG_LEVEL_DEBUG))`
(C truthiness: nonzero), then formats and transmits. -/
def LOG_DEBUG (g : log_level_t) (func : List Char) (line : Nat)
    (user : List Char) : List (List Char) :=
  if CHECK_LOG_LEVEL LOG_LEVEL_DEBUG g ≠ 0 then
    [transmitted (renderDebug func line user)]
  else []

/-- `LOG_INFO(fmt, ...)`: guarded by `if (CHECK_LOG_LEVEL(LOG_LEVEL_INFO))`. -/
def LOG_INFO (g : log_level_t) (func : List Char) (line : Nat)
    (user : List Char) : List (List Char) :=
  if CHECK_LOG_LEVEL LOG_LEVEL_INFO g ≠ 0 then
    [transmitted (renderInfo func line user)]
  else []

/-- `LOG_WARNING(fmt, ...)`: guarded by
`if (CHECK_LOG_LEVEL(LOG_LEVEL_WARNING))`. -/
def LOG_WARNING (g : log_level_t) (func : List Char) (line : Nat)
    (user : List Char) : List (List Char) :=
  if CHECK_LOG_LEVEL LOG_LEVEL_WARNING g ≠ 0 then
    [transmitted (renderWarning func line user)]
  else []

/-- `LOG_ERROR(fmt, ...)`: guarded by `if (CHECK_LOG_LEVEL(LOG_LEVEL_ERROR))`. -/
def LOG_ERROR (g : log_level_t) (func : List Char) (line : Nat)
    (user : List Char) : List (List Char) :=
  if CHECK_LOG_LEVEL LOG_LEVEL_ERROR g ≠ 0 then
    [transmitted (renderError func line user)]
  else []

/-- Outcome of the validated setter: either the new level was accepted, or the
`assert` fired (the InvalidSeverity condition). -/
inductive SetLevelResult where
  | ok (newLevel : log_level_t)
  | invalidSeverity
  deriving DecidableEq, Repr

/-- `LOGGER_SET_LOGGING_LEVEL(level)`:
`assert(level >= LOG_LEVEL_DEBUG && level < LOG_LEVEL_COUNT); gLogLevel = level;`
Returns the outcome together with the resulting `gLogLevel` (`g` is the value
before the call, unchanged when the assertion fires). -/
def LOGGER_SET_LOGGING_LEVEL (g level : log_level_t) :
    SetLevelResult × log_level_t :=
  if LOG_LEVEL_DEBUG.toOrdinal ≤ level.toOrdinal ∧
      level.toOrdinal < LOG_LEVEL_COUNT.toOrdinal then
    (SetLevelResult.ok level, level)
  else
    (SetLevelResult.invalidSeverity, g)

/-- `log_instance_t` from `logger_module.h`: a module name (used as log
prefix) and that module's minimum severity level. -/
structure log_instance_t where
  name : List Char
  level : log_level_t
  deriving DecidableEq, Repr

/-- The mutable state the logger touches: the global `gLogLevel` and the
per-module `log_instance_t` records.  `M` indexes the statically allocated
module instances (one `log_inst_<name>` per registered module). -/
structure LoggerState (M : Type) where
  gLogLevel : log_level_t
  modules : M → log_instance_t

/-- `LOG_MODULE_REGISTER(name, level)`: defines `log_inst_<name> = {#name,
level}` (and points `CURRENT_LOG_MODULE` at it, a binding no `LOG_*` macro
reads). -/
def LOG_MODULE_REGISTER {M : Type} [DecidableEq M] (st : LoggerState M)
    (m : M) (name : List Char) (level : log_level_t) : LoggerState M :=
  { st with modules := fun q => if q = m then ⟨name, level⟩ else st.modules q }

/-- `LOG_MODULE_SET_LEVEL(inst, level)`:
`if (inst) { inst->level = level; }` — no validation, null handle is a no-op. -/
def LOG_MODULE_SET_LEVEL {M : Type} [DecidableEq M] (st : LoggerState M)
    (inst : Option M) (level : log_level_t) : LoggerState M :=
  match inst with
  | none => st
  | some m =>
      { st with
        modules := fun q =>
          if q = m then ⟨(st.modules m).name, level⟩ else st.modules q }

/-- One logging call, carrying the data a macro invocation site supplies:
`__func__`, `__LINE__` and the substituted user text. -/
inductive Call where
  | debug (func : List Char) (line : Nat) (user : List Char)
  | info (func : List Char) (line : Nat) (user : List Char)
  | warning (func : List Char) (line : Nat) (user : List Char)
  | error (func : List Char) (line : Nat) (user : List Char)
  deriving DecidableEq, Repr

/-- The severity of a call. -/
def sevOf : Call → log_level_t
  | Call.debug _ _ _ => LOG_LEVEL_DEBUG
  | Call.info _ _ _ => LOG_LEVEL_INFO
  | Call.warning _ _ _ => LOG_LEVEL_WARNING
  | Call.error _ _ _ => LOG_LEVEL_ERROR

/-- Executing one call against the global level `g`: the macro of the matching
severity. -/
def runCall (g : log_level_t) : Call → List (List Char)
  | Call.debug func line user => LOG_DEBUG g func line user
  | Call.info func line user => LOG_INFO g func line user
  | Call.warning func line user => LOG_WARNING g func line user
  | Call.error func line user => LOG_ERROR g func line user

/-- Executing a sequence of calls, concatenating the transmitted messages in
order. -/
def runCalls (g : log_level_t) : List Call → List (List Char)
  | [] => []
  | c :: cs => runCall g c ++ runCalls g cs

/-- A logging call made in a translation unit whose `CURRENT_LOG_MODULE` is
the instance `m`: the `LOG_*` macros of `logger.h` expand identically there —
they reference `gLogLevel` only and never `CURRENT_LOG_MODULE`, so `m` and the
stored `log_instance_t` do not occur in the expansion. -/
def runCallFromModule {M : Type} (st : LoggerState M) (m : M) (c : Call) :
    List (List Char) :=
  match m with
  | _ => runCall st.gLogLevel c

/-- Modelled from the spec (the claim's words, for comparison with the code):
the decorated layout `"<color><TAG>[<func>:<line>]: <reset><user text>"`. -/
def claimedDecoratedLayout (color tag : List Char) (func : List Char)
    (line : Nat) (user : List Char) : List Char :=
  color ++ tag ++ "[".toList ++ func ++ ":".toList ++ (toString line).toList ++
    "]: ".toList ++ KNRM ++ user

/-! Helper lemmas about the C-string model. -/

theorem strlen_le_length (l : List Char) : strlen l ≤ l.length := by
  induction l with
  | nil => simp [strlen]
  | cons c cs ih =>
      by_cases h : c = NUL
      · simp [strlen, h]
      · simp only [strlen, if_neg h, List.length_cons]
        omega

theorem strlen_append_nul (l : List Char) (h : NUL ∉ l) :
    strlen (l ++ [NUL]) = l.length := by
  induction l with
  | nil => simp [strlen]
  | cons c cs ih =>
      simp only [List.mem_cons, not_or] at h
      have hc : c ≠ NUL := fun hc => h.1 hc.symm
      simp [strlen, hc, ih h.2]

theorem get_strlen (l : List Char) (h : NUL ∈ l) :
    l.get? (strlen l) = some NUL := by
  induction l with
  | nil => cases h
  | cons c cs ih =>
      by_cases hc : c = NUL
      · simp [strlen, hc]
      · have hcs : NUL ∈ cs := by
          cases List.mem_cons.mp h with
          | inl h1 => exact absurd h1.symm hc
          | inr h2 => exact h2
        simp only [strlen, if_neg hc]
        exact ih hcs

theorem take_append_self (l t : List Char) : (l ++ t).take l.length = l := by
  induction l with
  | nil => simp
  | cons c cs ih => simp [ih]

theorem transmitted_eq_take (l : List Char) (h : NUL ∉ l) :
    transmitted l = l.take (LOG_BUFFER_SIZE - 1) := by
  have h' : NUL ∉ l.take (LOG_BUFFER_SIZE - 1) :=
    fun hm => h (List.take_subset _ _ hm)
  unfold transmitted snprintfBuf
  rw [strlen_append_nul _ h', take_append_self]

theorem transmitted_of_fits (l : List Char) (h : NUL ∉ l)
    (hl : l.length ≤ LOG_BUFFER_SIZE - 1) : transmitted l = l := by
  rw [transmitted_eq_take l h, List.take_of_length_le hl]

/-! Theorems settling the claims. -/

/-- Claim C3: the filter `CHECK_LOG_LEVEL(S) = (S >= gLogLevel ? 1 : 0)`
returns 1 exactly when the candidate severity's enum value is at least the
threshold's, and with threshold `LOG_LEVEL_OFF` it returns 0 for all four real
severities, `LOG_LEVEL_ERROR` included, because `OFF`'s value 99 exceeds
`ERROR`'s value 3. -/
theorem c3_filter_ge_ordinal :
    (∀ s t : log_level_t,
        CHECK_LOG_LEVEL s t = 1 ↔ t.toOrdinal ≤ s.toOrdinal) ∧
    CHECK_LOG_LEVEL LOG_LEVEL_DEBUG LOG_LEVEL_OFF = 0 ∧
    CHECK_LOG_LEVEL LOG_LEVEL_INFO LOG_LEVEL_OFF = 0 ∧
    CHECK_LOG_LEVEL LOG_LEVEL_WARNING LOG_LEVEL_OFF = 0 ∧
    CHECK_LOG_LEVEL LOG_LEVEL_ERROR LOG_LEVEL_OFF = 0 ∧
    LOG_LEVEL_ERROR.toOrdinal < LOG_LEVEL_OFF.toOrdinal := by
  decide

/-- Claim C4: `LOGGER_SET_LOGGING_LEVEL` accepts exactly the four real levels
`DEBUG..ERROR` (setting `gLogLevel` to the argument) and fails with the
InvalidSeverity condition on every other enumerator, `LOG_LEVEL_COUNT` and
`LOG_LEVEL_OFF` included, leaving `gLogLevel` unchanged. -/
theorem c4_set_global_level_validates :
    ∀ g level : log_level_t,
      (level.toOrdinal ≤ LOG_LEVEL_ERROR.toOrdinal ∧
        LOGGER_SET_LOGGING_LEVEL g level = (SetLevelResult.ok level, level)) ∨
      (LOG_LEVEL_ERROR.toOrdinal < level.toOrdinal ∧
        LOGGER_SET_LOGGING_LEVEL g level =
          (SetLevelResult.invalidSeverity, g)) := by
  decide

/-- Claim C5: `LOG_MODULE_SET_LEVEL` validates nothing: on a non-null handle
it overwrites the instance's `level` field with any `log_level_t` value
(`OFF` and `COUNT` included), keeps the instance's name and the global level,
and on a null handle it is a no-op on the whole state. -/
theorem c5_module_set_level_unchecked {M : Type} [DecidableEq M]
    (st : LoggerState M) (m : M) (level : log_level_t) :
    LOG_MODULE_SET_LEVEL st none level = st ∧
    (LOG_MODULE_SET_LEVEL st (some m) level).modules m =
      ⟨(st.modules m).name, level⟩ ∧
    (LOG_MODULE_SET_LEVEL st (some m) level).gLogLevel = st.gLogLevel := by
  refine ⟨rfl, ?_, rfl⟩
  simp [LOG_MODULE_SET_LEVEL]

/-- Claim C1 (code-bug evidence): with `gLogLevel = DEBUG` and the active
module registered with level `OFF`, a `LOG_ERROR` call made in that module's
context still transmits — the `LOG_*` macros consult only `gLogLevel`, never
`CURRENT_LOG_MODULE->level`, although the severity 3 is below the module
threshold 99 and the claim (and `logger_module.h`'s own documentation and the
README's example output) require suppression. -/
theorem c1_module_threshold_ignored_at_off :
    (LOG_MODULE_REGISTER
        (⟨LOG_LEVEL_DEBUG, fun _ => ⟨[], LOG_LEVEL_DEBUG⟩⟩ : LoggerState Unit)
        () ("test").toList LOG_LEVEL_OFF).modules () =
      ⟨("test").toList, LOG_LEVEL_OFF⟩ ∧
    runCallFromModule
        (LOG_MODULE_REGISTER
          (⟨LOG_LEVEL_DEBUG, fun _ => ⟨[], LOG_LEVEL_DEBUG⟩⟩ : LoggerState Unit)
          () ("test").toList LOG_LEVEL_OFF)
        () (Call.error ("f").toList 1 ("x").toList) ≠ [] ∧
    LOG_LEVEL_ERROR.toOrdinal < LOG_LEVEL_OFF.toOrdinal := by
  decide

/-- Claim C10: for every rendered text, the buffer `snprintf` produces is
NUL-terminated (the byte at index `strlen` is NUL), the byte count handed to
`HAL_UART_Transmit` is exactly `strlen` of that buffer, and that count is
strictly below `LOG_BUFFER_SIZE`, so at most 127 payload bytes go out per
call. -/
theorem c10_transmit_nul_terminated_bounded (rendered : List Char) :
    (snprintfBuf rendered).get? (strlen (snprintfBuf rendered)) = some NUL ∧
    (transmitted rendered).length = strlen (snprintfBuf rendered) ∧
    strlen (snprintfBuf rendered) < LOG_BUFFER_SIZE := by
  have hmem : NUL ∈ snprintfBuf rendered := by
    unfold snprintfBuf
    exact List.mem_append_right _ (List.mem_singleton.mpr rfl)
  have hlt : strlen (snprintfBuf rendered) < LOG_BUFFER_SIZE := by
    have h1 : strlen (snprintfBuf rendered) ≤ (snprintfBuf rendered).length - 1 := by
      have := get_strlen _ hmem
      have hidx : strlen (snprintfBuf rendered) < (snprintfBuf rendered).length :=
        List.get?_eq_some.mp this |>.1
      omega
    have h2 : (snprintfBuf rendered).length ≤ LOG_BUFFER_SIZE := by
      unfold snprintfBuf
      have := List.length_take_le (LOG_BUFFER_SIZE - 1) rendered
      simp only [List.length_append, List.length_singleton]
      unfold LOG_BUFFER_SIZE at this ⊢
      omega
    unfold LOG_BUFFER_SIZE at h1 h2 ⊢
    omega
  refine ⟨get_strlen _ hmem, ?_, hlt⟩
  unfold transmitted
  rw [List.length_take]
  exact Nat.min_eq_left (strlen_le_length _)

/-- Claim C6 (counterexample): a rendered text of 200 characters exceeds the
buffer capacity 128, and the transmitted output then has length 127 =
`LOG_BUFFER_SIZE - 1`, not `LOG_BUFFER_SIZE` as the claim states — `snprintf`
keeps the last buffer byte for the NUL terminator. -/
theorem c6_truncation_counterexample :
    LOG_BUFFER_SIZE < (List.replicate 200 'a').length ∧
    (transmitted (List.replicate 200 'a')).length = LOG_BUFFER_SIZE - 1 ∧
    (transmitted (List.replicate 200 'a')).length ≠ LOG_BUFFER_SIZE := by
  decide

/-- Claim C6 as amended: when the rendered expansion (NUL-free, as any text
produced by a C format expansion is) exceeds the capacity, the transmitted
output is the text truncated to `LOG_BUFFER_SIZE - 1 = 127` characters — the
remaining buffer byte holds the NUL terminator — no error value exists in the
operation (it is total), and the buffer `snprintf` fills never exceeds
`LOG_BUFFER_SIZE` bytes. -/
theorem c6_truncates_to_cap_minus_one (rendered : List Char)
    (hn : NUL ∉ rendered) (hlong : LOG_BUFFER_SIZE < rendered.length) :
    transmitted rendered = rendered.take (LOG_BUFFER_SIZE - 1) ∧
    (transmitted rendered).length = LOG_BUFFER_SIZE - 1 ∧
    (snprintfBuf rendered).length ≤ LOG_BUFFER_SIZE := by
  refine ⟨transmitted_eq_take rendered hn, ?_, ?_⟩
  · rw [transmitted_eq_take rendered hn, List.length_take]
    unfold LOG_BUFFER_SIZE at hlong ⊢
    omega
  · unfold snprintfBuf
    have := List.length_take_le (LOG_BUFFER_SIZE - 1) rendered
    simp only [List.length_append, List.length_singleton]
    unfold LOG_BUFFER_SIZE at this ⊢
    omega

/-- Witness for C6 as amended, at a concrete 130-character rendered text. -/
theorem c6_truncates_to_cap_minus_one_witness :
    NUL ∉ List.replicate 130 'b' ∧
    LOG_BUFFER_SIZE < (List.replicate 130 'b').length ∧
    (transmitted (List.replicate 130 'b') =
        (List.replicate 130 'b').take (LOG_BUFFER_SIZE - 1) ∧
      (transmitted (List.replicate 130 'b')).length = LOG_BUFFER_SIZE - 1 ∧
      (snprintfBuf (List.replicate 130 'b')).length ≤ LOG_BUFFER_SIZE) :=
  ⟨by decide, by decide,
    c6_truncates_to_cap_minus_one (List.replicate 130 'b') (by decide)
      (by decide)⟩

/-- Claim C7: `LOG_RAW` transmits exactly once for every ambient global level
(`OFF` included) — there is no filter in the macro — and when the substituted
text fits the buffer the transmitted bytes are exactly that text: no color
code, no tag, no module, function or line decoration is added. -/
theorem c7_raw_unfiltered_undecorated (g : log_level_t) (rendered : List Char)
    (hn : NUL ∉ rendered) (hfit : rendered.length ≤ LOG_BUFFER_SIZE - 1) :
    LOG_RAW g rendered = [rendered] ∧
    (∀ g' : log_level_t, LOG_RAW g' rendered = LOG_RAW g rendered) ∧
    (∀ (g' : log_level_t) (r : List Char), (LOG_RAW g' r).length = 1) := by
  refine ⟨?_, fun g' => ?_, fun g' r => ?_⟩
  · show [transmitted rendered] = [rendered]
    rw [transmitted_of_fits rendered hn hfit]
  · cases g' <;> cases g <;> rfl
  · cases g' <;> rfl

/-- Witness for C7: with the global level `OFF`, `LOG_RAW` still transmits,
and the payload is exactly the two user characters. -/
theorem c7_raw_unfiltered_undecorated_witness :
    NUL ∉ ("hi").toList ∧ ("hi").toList.length ≤ LOG_BUFFER_SIZE - 1 ∧
    (LOG_RAW LOG_LEVEL_OFF ("hi").toList = [("hi").toList] ∧
      (∀ g' : log_level_t,
        LOG_RAW g' ("hi").toList = LOG_RAW LOG_LEVEL_OFF ("hi").toList) ∧
      (∀ (g' : log_level_t) (r : List Char), (LOG_RAW g' r).length = 1)) :=
  ⟨by decide, by decide,
    c7_raw_unfiltered_undecorated LOG_LEVEL_OFF ("hi").toList (by decide)
      (by decide)⟩

/-- Claim C2 (counterexample): `LOG_DEBUG`'s rendered text differs from the
claimed layout `<color><TAG>[<func>:<line>]: <reset><user>` (its reset comes
after the user text), and `LOG_INFO`'s rendered line ends with the user
text's last character `i`, not with the reset code (whose last character is
`m`), so the reset code does not terminate every decorated line. -/
theorem c2_layout_counterexample :
    renderDebug ("f").toList 1 ("hi").toList ≠
      claimedDecoratedLayout KWHT ("[DBG]").toList ("f").toList 1
        ("hi").toList ∧
    (renderInfo ("f").toList 1 ("hi").toList).getLast? = some 'i' ∧
    KNRM.getLast? = some 'm' := by
  decide

/-- Claim C2 as amended: when the message fits the buffer, `LOG_DEBUG` emits
`<white>[DBG][<func>:<line>]: <user text><reset>` (reset terminates the line,
user text colored), while `LOG_INFO`, `LOG_WARNING` and `LOG_ERROR` emit
`<color>[TAG][<func>:<line>]: <reset><user text>` (reset before the user
text, the line is not reset-terminated), with colors white, green, yellow,
red; no variant ever inserts a module name. -/
theorem c2_actual_layouts (func : List Char) (line : Nat) (user : List Char)
    (hf : NUL ∉ func) (hl : NUL ∉ (toString line).toList) (hu : NUL ∉ user)
    (hlen : func.length + (toString line).toList.length + user.length + 19 ≤
      LOG_BUFFER_SIZE - 1) :
    LOG_DEBUG LOG_LEVEL_DEBUG func line user =
      [KWHT ++ ("[DBG][").toList ++ func ++ (":").toList ++
        (toString line).toList ++ ("]: ").toList ++ user ++ KNRM] ∧
    LOG_INFO LOG_LEVEL_DEBUG func line user =
      [KGRN ++ ("[INF][").toList ++ func ++ (":").toList ++
        (toString line).toList ++ ("]: ").toList ++ KNRM ++ user] ∧
    LOG_WARNING LOG_LEVEL_DEBUG func line user =
      [KYEL ++ ("[WRN][").toList ++ func ++ (":").toList ++
        (toString line).toList ++ ("]: ").toList ++ KNRM ++ user] ∧
    LOG_ERROR LOG_LEVEL_DEBUG func line user =
      [KRED ++ ("[ERR][").toList ++ func ++ (":").toList ++
        (toString line).toList ++ ("]: ").toList ++ KNRM ++ user] := by
  have nulfree : ∀ r : List Char,
      (r = renderDebug func line user ∨ r = renderInfo func line user ∨
        r = renderWarning func line user ∨ r = renderError func line user) →
      NUL ∉ r := by
    intro r hr hm
    rcases hr with h | h | h | h <;> subst h <;>
      simp only [renderDebug, renderInfo, renderWarning, renderError,
        List.mem_append] at hm <;>
      rcases hm with ((((((hm | hm) | hm) | hm) | hm) | hm) | hm) | hm <;>
      first
        | exact hf hm
        | exact hu hm
        | exact hl hm
        | exact absurd hm (by decide)
  have lens : KWHT.length = 5 ∧ KGRN.length = 5 ∧ KYEL.length = 5 ∧
      KRED.length = 5 ∧ KNRM.length = 4 ∧ ("[DBG][").toList.length = 6 ∧
      ("[INF][").toList.length = 6 ∧ ("[WRN][").toList.length = 6 ∧
      ("[ERR][").toList.length = 6 ∧ (":").toList.length = 1 ∧
      ("]: ").toList.length = 3 := by decide
  obtain ⟨l1, l2, l3, l4, l5, l6, l7, l8, l9, l10, l11⟩ := lens
  have fitD : (renderDebug func line user).length ≤ LOG_BUFFER_SIZE - 1 := by
    simp only [renderDebug, List.length_append, l1, l5, l6, l10, l11]
    unfold LOG_BUFFER_SIZE at hlen ⊢
    omega
  have fitI : (renderInfo func line user).length ≤ LOG_BUFFER_SIZE - 1 := by
    simp only [renderInfo, List.length_append, l2, l5, l7, l10, l11]
    unfold LOG_BUFFER_SIZE at hlen ⊢
    omega
  have fitW : (renderWarning func line user).length ≤ LOG_BUFFER_SIZE - 1 := by
    simp only [renderWarning, List.length_append, l3, l5, l8, l10, l11]
    unfold LOG_BUFFER_SIZE at hlen ⊢
    omega
  have fitE : (renderError func line user).length ≤ LOG_BUFFER_SIZE - 1 := by
    simp only [renderError, List.length_append, l4, l5, l9, l10, l11]
    unfold LOG_BUFFER_SIZE at hlen ⊢
    omega
  refine ⟨?_, ?_, ?_, ?_⟩
  · show (if CHECK_LOG_LEVEL LOG_LEVEL_DEBUG LOG_LEVEL_DEBUG ≠ 0 then
        [transmitted (renderDebug func line user)] else []) = _
    rw [if_pos (by decide),
      transmitted_of_fits _ (nulfree _ (Or.inl rfl)) fitD]
    rfl
  · show (if CHECK_LOG_LEVEL LOG_LEVEL_INFO LOG_LEVEL_DEBUG ≠ 0 then
        [transmitted (renderInfo func line user)] else []) = _
    rw [if_pos (by decide),
      transmitted_of_fits _ (nulfree _ (Or.inr (Or.inl rfl))) fitI]
    rfl
  · show (if CHECK_LOG_LEVEL LOG_LEVEL_WARNING LOG_LEVEL_DEBUG ≠ 0 then
        [transmitted (renderWarning func line user)] else []) = _
    rw [if_pos (by decide),
      transmitted_of_fits _ (nulfree _ (Or.inr (Or.inr (Or.inl rfl)))) fitW]
    rfl
  · show (if CHECK_LOG_LEVEL LOG_LEVEL_ERROR LOG_LEVEL_DEBUG ≠ 0 then
        [transmitted (renderError func line user)] else []) = _
    rw [if_pos (by decide),
      transmitted_of_fits _ (nulfree _ (Or.inr (Or.inr (Or.inr rfl)))) fitE]
    rfl

/-- Witness for C2 as amended, at `func = "f"`, `line = 1`, `user = "hi"`. -/
theorem c2_actual_layouts_witness :
    NUL ∉ ("f").toList ∧ NUL ∉ (toString 1).toList ∧ NUL ∉ ("hi").toList ∧
    ("f").toList.length + (toString 1).toList.length + ("hi").toList.length +
      19 ≤ LOG_BUFFER_SIZE - 1 ∧
    (LOG_DEBUG LOG_LEVEL_DEBUG ("f").toList 1 ("hi").toList =
      [KWHT ++ ("[DBG][").toList ++ ("f").toList ++ (":").toList ++
        (toString 1).toList ++ ("]: ").toList ++ ("hi").toList ++ KNRM] ∧
    LOG_INFO LOG_LEVEL_DEBUG ("f").toList 1 ("hi").toList =
      [KGRN ++ ("[INF][").toList ++ ("f").toList ++ (":").toList ++
        (toString 1).toList ++ ("]: ").toList ++ KNRM ++ ("hi").toList] ∧
    LOG_WARNING LOG_LEVEL_DEBUG ("f").toList 1 ("hi").toList =
      [KYEL ++ ("[WRN][").toList ++ ("f").toList ++ (":").toList ++
        (toString 1).toList ++ ("]: ").toList ++ KNRM ++ ("hi").toList] ∧
    LOG_ERROR LOG_LEVEL_DEBUG ("f").toList 1 ("hi").toList =
      [KRED ++ ("[ERR][").toList ++ ("f").toList ++ (":").toList ++
        (toString 1).toList ++ ("]: ").toList ++ KNRM ++ ("hi").toList]) :=
  ⟨by decide, by decide, by decide, by decide,
    c2_actual_layouts ("f").toList 1 ("hi").toList (by decide) (by decide)
      (by decide) (by decide)⟩

/-- Claim C8: with the global level at `WARNING`, running any sequence of
DEBUG/INFO/WARNING/ERROR calls transmits exactly the messages of the calls
whose severity value is at least `WARNING`'s, in order, and each transmitted
WARNING/ERROR message is the buffered form of
`<color>[TAG][<func>:<line>]: <reset><user text>` (yellow/red color, tag,
reset code, function name and line number); the DEBUG and INFO calls
transmit nothing. -/
theorem c8_warning_threshold_sequence (cs : List Call) :
    runCalls LOG_LEVEL_WARNING cs =
      (cs.filter fun c =>
        decide (LOG_LEVEL_WARNING.toOrdinal ≤ (sevOf c).toOrdinal)).map
        (fun c =>
          match c with
          | Call.debug f l u => transmitted (renderDebug f l u)
          | Call.info f l u => transmitted (renderInfo f l u)
          | Call.warning f l u =>
              transmitted (KYEL ++ ("[WRN][").toList ++ f ++ (":").toList ++
                (toString l).toList ++ ("]: ").toList ++ KNRM ++ u)
          | Call.error f l u =>
              transmitted (KRED ++ ("[ERR][").toList ++ f ++ (":").toList ++
                (toString l).toList ++ ("]: ").toList ++ KNRM ++ u)) := by
  induction cs with
  | nil => rfl
  | cons c cs ih =>
      cases c with
      | debug f l u => exact ih
      | info f l u => exact ih
      | warning f l u => exact congrArg (List.cons _) ih
      | error f l u => exact congrArg (List.cons _) ih

/-- Claim C9: registering two modules at distinct instances `a ≠ b` and then
calling `LOG_MODULE_SET_LEVEL` on `a`'s handle (here with `OFF`-capable
level `l`) leaves `b`'s name and level fields exactly as registered and
leaves every logging call made in `b`'s context with an unchanged result. -/
theorem c9_module_independence {M : Type} [DecidableEq M]
    (st : LoggerState M) (a b : M) (na nb : List Char) (la lb : log_level_t)
    (l : log_level_t) (h : a ≠ b) :
    (LOG_MODULE_SET_LEVEL
        (LOG_MODULE_REGISTER (LOG_MODULE_REGISTER st a na la) b nb lb)
        (some a) l).modules b =
      (LOG_MODULE_REGISTER (LOG_MODULE_REGISTER st a na la) b nb lb).modules
        b ∧
    (LOG_MODULE_REGISTER (LOG_MODULE_REGISTER st a na la) b nb lb).modules b =
      ⟨nb, lb⟩ ∧
    (∀ c : Call,
      runCallFromModule
        (LOG_MODULE_SET_LEVEL
          (LOG_MODULE_REGISTER (LOG_MODULE_REGISTER st a na la) b nb lb)
          (some a) l) b c =
      runCallFromModule
        (LOG_MODULE_REGISTER (LOG_MODULE_REGISTER st a na la) b nb lb) b
        c) := by
  refine ⟨?_, ?_, fun c => rfl⟩
  · simp [LOG_MODULE_SET_LEVEL, LOG_MODULE_REGISTER, Ne.symm h]
  · simp [LOG_MODULE_REGISTER]

/-- Witness for C9: two concrete modules over `Bool`, the first set to `OFF`;
the second keeps its registration and its calls. -/
theorem c9_module_independence_witness :
    (false : Bool) ≠ true ∧
    ((LOG_MODULE_SET_LEVEL
        (LOG_MODULE_REGISTER
          (LOG_MODULE_REGISTER
            (⟨LOG_LEVEL_DEBUG, fun _ =>
              ⟨[], LOG_LEVEL_DEBUG⟩⟩ : LoggerState Bool)
            false ("a").toList LOG_LEVEL_DEBUG)
          true ("b").toList LOG_LEVEL_INFO)
        (some false) LOG_LEVEL_OFF).modules true =
      (LOG_MODULE_REGISTER
        (LOG_MODULE_REGISTER
          (⟨LOG_LEVEL_DEBUG, fun _ =>
            ⟨[], LOG_LEVEL_DEBUG⟩⟩ : LoggerState Bool)
          false ("a").toList LOG_LEVEL_DEBUG)
        true ("b").toList LOG_LEVEL_INFO).modules true ∧
    (LOG_MODULE_REGISTER
        (LOG_MODULE_REGISTER
          (⟨LOG_LEVEL_DEBUG, fun _ =>
            ⟨[], LOG_LEVEL_DEBUG⟩⟩ : LoggerState Bool)
          false ("a").toList LOG_LEVEL_DEBUG)
        true ("b").toList LOG_LEVEL_INFO).modules true =
      ⟨("b").toList, LOG_LEVEL_INFO⟩ ∧
    (∀ c : Call,
      runCallFromModule
        (LOG_MODULE_SET_LEVEL
          (LOG_MODULE_REGISTER
            (LOG_MODULE_REGISTER
              (⟨LOG_LEVEL_DEBUG, fun _ =>
                ⟨[], LOG_LEVEL_DEBUG⟩⟩ : LoggerState Bool)
              false ("a").toList LOG_LEVEL_DEBUG)
            true ("b").toList LOG_LEVEL_INFO)
          (some false) LOG_LEVEL_OFF) true c =
      runCallFromModule
        (LOG_MODULE_REGISTER
          (LOG_MODULE_REGISTER
            (⟨LOG_LEVEL_DEBUG, fun _ =>
              ⟨[], LOG_LEVEL_DEBUG⟩⟩ : LoggerState Bool)
            false ("a").toList LOG_LEVEL_DEBUG)
          true ("b").toList LOG_LEVEL_INFO) true c)) :=
  ⟨by decide,
    c9_module_independence
      (⟨LOG_LEVEL_DEBUG, fun _ => ⟨[], LOG_LEVEL_DEBUG⟩⟩ : LoggerState Bool)
      false true ("a").toList ("b").toList LOG_LEVEL_DEBUG LOG_LEVEL_INFO
      LOG_LEVEL_OFF (by decide)⟩

end StmLogger
